import Mathlib

/-!
# hipblas_saxpy sample (`saxpy.cublas.cpp`): embedding and verification

The program fills two host vectors, runs SAXPY on the device through cuBLAS,
recomputes the result on the host and counts the indices where the two results
disagree beyond a relative tolerance.

The embedding has three layers:

* `F32`: IEEE 754 binary32 values with round-to-nearest-even arithmetic
  (the C++ type `float` of the source). Every `*`, `+` and `-` rounds on its
  own; `fabs` and `>` are exact, also when the operands are promoted to
  `double`. The host inputs `x`, `y` and `a` are finite numbers (`Finite32`),
  the device result is any `float`, NaN and infinities included;
* the two host loops (`refLoop`, `verifyLoop`) over arrays modelled as
  functions from the index;
* `main`: the sequence of runtime calls with the `CHECK` / `CHECK_BLAS`
  wrappers, as a function from the statuses the runtime reports to the trace of
  calls issued and the way the process ends.
-/

namespace Saxpy

/-! ## binary32 arithmetic -/

/-- A binary32 value. A finite value is a sign and a magnitude counted in units
of `2^-149` (the smallest subnormal), so `fin s m` denotes `(-1)^s * m * 2^-149`. -/
inductive F32 where
  | nan : F32
  | inf (neg : Bool) : F32
  | fin (neg : Bool) (mag : Nat) : F32
deriving DecidableEq, Repr

/-- Spacing of binary32 numbers around the magnitude `m` (in units of `2^-149`):
`1` for subnormals and the first normal binade (`m < 2^24`), doubling with each
binade above. The first argument bounds the number of halvings. -/
def ulpAux : Nat → Nat → Nat
  | 0, _ => 1
  | fuel + 1, m => if m < 2 ^ 24 then 1 else 2 * ulpAux fuel (m / 2)

/-- Spacing of the binary32 numbers around the magnitude m. -/
def ulp (m : Nat) : Nat := ulpAux m m

/-- The magnitude `2^128` in units of `2^-149`: the first one that is too large
for a finite binary32 number. -/
def overflowMag : Nat := 2 ^ 128 * 2 ^ 149

/-- Round to nearest, ties to even: the quotient to keep, given the quotient `k`
and the remainder `r` of a division by `u`. -/
def nearestEven (k r u : Nat) : Nat :=
  if 2 * r < u then k else if u < 2 * r then k + 1 else if k % 2 = 0 then k else k + 1

/-- The magnitude `m` (in units of `2^-149`) is one a binary32 number can have:
a 24-bit significand at its binade, below `2^128`. -/
def representable (m : Nat) : Prop := ulp m ∣ m ∧ m < overflowMag

instance (m : Nat) : Decidable (representable m) := by
  unfold representable; infer_instance

namespace F32

/-- Round the non-negative rational `n / d` (in units of `2^-149`, `0 < d`) to
the nearest binary32 magnitude, ties to even; a result of `2^128` or more
overflows to infinity. -/
def round (neg : Bool) (n d : Nat) : F32 :=
  let u := ulp (n / d)
  let k := nearestEven (n / (d * u)) (n % (d * u)) (d * u)
  if k * u < overflowMag then fin neg (k * u) else inf neg

/-- Unary minus of C++. -/
def neg : F32 → F32
  | nan => nan
  | inf s => inf (!s)
  | fin s m => fin (!s) m

/-- Absolute value, `fabs` of C++: clears the sign. -/
def fabs : F32 → F32
  | nan => nan
  | inf _ => inf false
  | fin _ m => fin false m

/-- Product, `*` on `float`. -/
def mul : F32 → F32 → F32
  | nan, _ => nan
  | _, nan => nan
  | inf s, inf t => inf (xor s t)
  | inf s, fin t m => if m = 0 then nan else inf (xor s t)
  | fin s m, inf t => if m = 0 then nan else inf (xor s t)
  | fin s m, fin t k => round (xor s t) (m * k) (2 ^ 149)

/-- Sum, `+` on `float`; an exact zero sum of opposite signs is `+0`. -/
def add : F32 → F32 → F32
  | nan, _ => nan
  | _, nan => nan
  | inf s, inf t => if s = t then inf s else nan
  | inf s, fin _ _ => inf s
  | fin _ _, inf t => inf t
  | fin s m, fin t k =>
    if s = t then round s (m + k) 1
    else if k < m then round s (m - k) 1
    else if m < k then round t (k - m) 1
    else fin false 0

/-- Difference, binary `-` on `float`. -/
def sub (a b : F32) : F32 := add a (neg b)

/-- The value of a finite number as a signed count of units. -/
def signed (s : Bool) (m : Nat) : Int := if s then -(m : Int) else (m : Int)

/-- Comparison `>` of C++: false whenever an operand is NaN. -/
def gt : F32 → F32 → Bool
  | nan, _ => false
  | _, nan => false
  | inf s, inf t => !s && t
  | inf s, fin _ _ => !s
  | fin _ _, inf t => t
  | fin s m, fin t k => decide (signed t k < signed s m)

/-- Comparison `==` of C++: false whenever an operand is NaN, and `+0 == -0`. -/
def eq : F32 → F32 → Bool
  | nan, _ => false
  | _, nan => false
  | inf s, inf t => s == t
  | inf _, fin _ _ => false
  | fin _ _, inf _ => false
  | fin s m, fin t k => decide (signed s m = signed t k)

/-- Comparison `!=` of C++: the negation of `==`, true whenever an operand is NaN. -/
def ne (a b : F32) : Bool := !(eq a b)

/-- The literal `0.0001f`: the binary32 number nearest to `1/10000`. -/
def lit_0_0001f : F32 := round false (2 ^ 149) 10000

/-- The literal `100.0f`. -/
def lit_100f : F32 := round false (100 * 2 ^ 149) 1

/-- A float literal for the whole number `n`. -/
def ofNat (n : Nat) : F32 := round false (n * 2 ^ 149) 1

end F32

/-- A finite binary32 number. The host inputs are of this kind: `x` and `y` are
drawn from `uniform_real_distribution<float>(-N, N)` and `a` is a literal. -/
structure Finite32 where
  neg : Bool
  mag : Nat
  ok : representable mag

/-- The `float` a finite number is. -/
def Finite32.val (v : Finite32) : F32 := F32.fin v.neg v.mag

/-! ## Host state and the two host loops -/

/-- An array `float v[N]`, as the function from the index to the element. -/
abbrev Vec := Nat → F32

/-- The four host arrays of `main`. -/
@[ext]
structure Host where
  x : Nat → Finite32
  y : Nat → Finite32
  y_cpu_res : Vec
  y_gpu_res : Vec

/-- The problem size, `#define N (1024 * 500)`. -/
def N : Nat := 1024 * 500

/-- The loop `for (int i = 0; i < n; i++) s = body(i, s)`. -/
def forLoop {σ : Type} (body : Nat → σ → σ) : Nat → σ → σ
  | 0, s => s
  | n + 1, s => body n (forLoop body n s)

/-- Copy of the first `n` elements of `src` into `dst`, as done by
`std::copy_n(src, n, dst)` and by `cublasGetVector(n, .., src, 1, dst, 1)`. -/
def copy_n (src : Vec) (n : Nat) (dst : Vec) : Vec :=
  fun i => if i < n then src i else dst i

/-- Body of the reference loop: `y_cpu_res[i] = a * x[i] + y[i];`. -/
def refBody (a : Finite32) (i : Nat) (h : Host) : Host :=
  { h with y_cpu_res :=
      Function.update h.y_cpu_res i (F32.add (F32.mul a.val (h.x i).val) (h.y i).val) }

/-- The reference loop ("CPU implementation of saxpy") over `n` elements. -/
def refLoop (n : Nat) (a : Finite32) (h : Host) : Host :=
  forLoop (refBody a) n h

/-- Body of the verification loop:
`if (fabs(y_cpu_res[i] - y_gpu_res[i]) > fabs(y_cpu_res[i] * 0.0001f)) errors++;`. -/
def verifyBody (h : Host) (i : Nat) (errors : Int) : Int :=
  if F32.gt (F32.fabs (F32.sub (h.y_cpu_res i) (h.y_gpu_res i)))
      (F32.fabs (F32.mul (h.y_cpu_res i) F32.lit_0_0001f)) = true
  then errors + 1 else errors

/-- The verification loop over `n` elements, from `int errors = 0;`. -/
def verifyLoop (n : Nat) (h : Host) : Int :=
  forLoop (verifyBody h) n 0

/-! ## The runtime calls and `main` -/

/-- The runtime calls of `main`, in program order. -/
inductive Call where
  | cudaGetDeviceProperties
  | cudaMalloc_x
  | cudaMalloc_y
  | cublasCreate
  | cublasSetVector_x
  | cublasSetVector_y
  | cublasSaxpy
  | cudaDeviceSynchronize
  | cublasGetVector
  | cudaFree_x
  | cudaFree_y
  | cublasDestroy
deriving DecidableEq, Repr

/-- What the accelerator runtime does in one run: the status each call reports
and the content of the device buffer `y_gpu` that `cublasGetVector` reads. -/
structure Runtime where
  status : Call → Int
  y_gpu : Vec

/-- The success status `cudaSuccess` of the CUDA runtime (`driver_types.h`). -/
def cudaSuccess : Int := 0

/-- The success status `CUBLAS_STATUS_SUCCESS` of cuBLAS (`cublas_api.h`). -/
def CUBLAS_STATUS_SUCCESS : Int := 0

/-- The failure status `EXIT_FAILURE` of the C library (`stdlib.h`). -/
def EXIT_FAILURE : Int := 1

/-- How the process ends: `exit(status)` inside a check, or `return value` from
`main`. -/
inductive Outcome where
  | exit (status : Int)
  | ret (value : Int)
deriving DecidableEq, Repr

/-- A run of `main`: the runtime calls issued, in order, and how it ended. -/
structure Result where
  trace : List Call
  outcome : Outcome
deriving DecidableEq, Repr

/-- The wrapper `CHECK(cmd)`: issue the call; on a status other than
`cudaSuccess` the process exits with `EXIT_FAILURE`, otherwise the rest runs. -/
def CHECK (rt : Runtime) (cmd : Call) (rest : Result) : Result :=
  if rt.status cmd ≠ cudaSuccess then ⟨[cmd], Outcome.exit EXIT_FAILURE⟩
  else ⟨cmd :: rest.trace, rest.outcome⟩

/-- The wrapper `CHECK_BLAS(cmd)`: as `CHECK`, against `CUBLAS_STATUS_SUCCESS`. -/
def CHECK_BLAS (rt : Runtime) (cmd : Call) (rest : Result) : Result :=
  if rt.status cmd ≠ CUBLAS_STATUS_SUCCESS then ⟨[cmd], Outcome.exit EXIT_FAILURE⟩
  else ⟨cmd :: rest.trace, rest.outcome⟩

/-- A call whose status is discarded (`cudaDeviceSynchronize();`). -/
def unchecked (cmd : Call) (rest : Result) : Result :=
  ⟨cmd :: rest.trace, rest.outcome⟩

/-- The function `main` for problem size `n` and scalar `a`. The host state `h`
holds the generated `x` and `y` and the uninitialised content of the two
result arrays. -/
def main (n : Nat) (a : Finite32) (h : Host) (rt : Runtime) : Result :=
  let h1 : Host := { h with y_cpu_res := copy_n (fun i => (h.y i).val) n h.y_cpu_res }
  CHECK rt Call.cudaGetDeviceProperties <|
  CHECK rt Call.cudaMalloc_x <|
  CHECK rt Call.cudaMalloc_y <|
  CHECK_BLAS rt Call.cublasCreate <|
  CHECK_BLAS rt Call.cublasSetVector_x <|
  CHECK_BLAS rt Call.cublasSetVector_y <|
  CHECK_BLAS rt Call.cublasSaxpy <|
  unchecked Call.cudaDeviceSynchronize <|
  CHECK_BLAS rt Call.cublasGetVector <|
  let h2 : Host := { h1 with y_gpu_res := copy_n rt.y_gpu n h1.y_gpu_res }
  let h3 : Host := refLoop n a h2
  let errors : Int := verifyLoop n h3
  CHECK rt Call.cudaFree_x <|
  CHECK rt Call.cudaFree_y <|
  CHECK_BLAS rt Call.cublasDestroy <|
  ⟨[], Outcome.ret errors⟩

/-- Modelled from the spec: the exit status the parent process observes, which
is the value passed to `exit` or returned from `main`, modulo 256. -/
def exitStatus : Outcome → Int
  | Outcome.exit status => status % 256
  | Outcome.ret value => value % 256

/-- The success status of the interface a call belongs to: `cudaSuccess` for
the CUDA runtime, `CUBLAS_STATUS_SUCCESS` for cuBLAS. -/
def Call.success : Call → Int
  | Call.cudaGetDeviceProperties => cudaSuccess
  | Call.cudaMalloc_x => cudaSuccess
  | Call.cudaMalloc_y => cudaSuccess
  | Call.cublasCreate => CUBLAS_STATUS_SUCCESS
  | Call.cublasSetVector_x => CUBLAS_STATUS_SUCCESS
  | Call.cublasSetVector_y => CUBLAS_STATUS_SUCCESS
  | Call.cublasSaxpy => CUBLAS_STATUS_SUCCESS
  | Call.cudaDeviceSynchronize => cudaSuccess
  | Call.cublasGetVector => CUBLAS_STATUS_SUCCESS
  | Call.cudaFree_x => cudaSuccess
  | Call.cudaFree_y => cudaSuccess
  | Call.cublasDestroy => CUBLAS_STATUS_SUCCESS

/-- The runtime calls of `main` in the order of the source text (lines 52 to 91). -/
def callSeq : List Call :=
  [Call.cudaGetDeviceProperties, Call.cudaMalloc_x, Call.cudaMalloc_y, Call.cublasCreate,
   Call.cublasSetVector_x, Call.cublasSetVector_y, Call.cublasSaxpy,
   Call.cudaDeviceSynchronize, Call.cublasGetVector, Call.cudaFree_x, Call.cudaFree_y,
   Call.cublasDestroy]

/-- Position of a call in the source text, from 0. -/
def Call.index : Call → Nat
  | Call.cudaGetDeviceProperties => 0
  | Call.cudaMalloc_x => 1
  | Call.cudaMalloc_y => 2
  | Call.cublasCreate => 3
  | Call.cublasSetVector_x => 4
  | Call.cublasSetVector_y => 5
  | Call.cublasSaxpy => 6
  | Call.cudaDeviceSynchronize => 7
  | Call.cublasGetVector => 8
  | Call.cudaFree_x => 9
  | Call.cudaFree_y => 10
  | Call.cublasDestroy => 11

/-- The calls that the source wraps in `CHECK` or `CHECK_BLAS`: all of them but
`cudaDeviceSynchronize`. -/
def Call.checked (c : Call) : Prop := c ≠ Call.cudaDeviceSynchronize

instance (c : Call) : Decidable c.checked := by
  unfold Call.checked; infer_instance

/-- The host arrays when the verification starts: `y_cpu_res` holds the copy of
`y` made at line 42 and `y_gpu_res` what `cublasGetVector` transferred out. -/
def afterTransfer (n : Nat) (h : Host) (rt : Runtime) : Host :=
  { h with
    y_cpu_res := copy_n (fun i => (h.y i).val) n h.y_cpu_res
    y_gpu_res := copy_n rt.y_gpu n h.y_gpu_res }

/-! ## Reference values, as the specification words them -/

/-- The reference value `a * x[i] + y[i]` at index `i`. -/
def refValue (a : Finite32) (h : Host) (i : Nat) : F32 :=
  F32.add (F32.mul a.val (h.x i).val) (h.y i).val

/-- The mismatch test as the specification words it:
`|ref - res| > |ref| * 0.0001`. -/
def exceedsTolerance (ref res : F32) : Bool :=
  F32.gt (F32.fabs (F32.sub ref res)) (F32.mul (F32.fabs ref) F32.lit_0_0001f)

/-- The number of indices `i` in `[0, n)` at which the device result `res`
mismatches the reference, as the specification words it. -/
def mismatchCount (n : Nat) (a : Finite32) (h : Host) (res : Vec) : Nat :=
  ((Finset.range n).filter
    (fun i => exceedsTolerance (refValue a h i) (res i) = true)).card

/-! ## Concrete inputs used below -/

/-- The whole number `n` as a magnitude in units of `2^-149`. -/
def whole (n : Nat) : Nat := n * 2 ^ 149

set_option maxRecDepth 100000 in
/-- The number `0.0f`. -/
def f0 : Finite32 := ⟨false, 0, by decide⟩

set_option maxRecDepth 100000 in
/-- The number `1.0f`. -/
def f1 : Finite32 := ⟨false, whole 1, by decide⟩

set_option maxRecDepth 100000 in
/-- The number `2.0f`. -/
def f2 : Finite32 := ⟨false, whole 2, by decide⟩

set_option maxRecDepth 100000 in
/-- The number `10.0f`. -/
def f10 : Finite32 := ⟨false, whole 10, by decide⟩

set_option maxRecDepth 100000 in
/-- The number `20.0f`. -/
def f20 : Finite32 := ⟨false, whole 20, by decide⟩

set_option maxRecDepth 100000 in
/-- The scalar of the source, `const float a = 100.0f`. -/
def a : Finite32 := ⟨false, whole 100, by decide⟩

/-- A runtime in which every call reports success and the device buffer holds `res`. -/
def okRuntime (res : Vec) : Runtime := ⟨fun _ => 0, res⟩

/-- The scenario of the specification: `x = [1.0, 2.0]`, `y = [10.0, 20.0]`, with
`res` as the content of both result arrays. -/
def scenario (res : Vec) : Host :=
  ⟨fun i => if i = 0 then f1 else f2, fun i => if i = 0 then f10 else f20, res, res⟩

/-- The vector `[110.0, 220.0]`, the expected result of the scenario. -/
def expected : Vec := fun i => if i = 0 then F32.fin false (whole 110) else F32.fin false (whole 220)

/-- The vector `[10.0, 20.0]`, the `y` of the scenario. -/
def yOfScenario : Vec := fun i => if i = 0 then F32.fin false (whole 10) else F32.fin false (whole 20)

/-- The vector `[110.0, 0.0]`: the expected result, corrupted at index 1. -/
def corrupted : Vec := fun i => if i = 0 then F32.fin false (whole 110) else F32.fin false 0

/-- A host whose inputs `x` and `y` are zero everywhere, with `res` as the content
of both result arrays. -/
def zeros (res : Vec) : Host := ⟨fun _ => f0, fun _ => f0, res, res⟩

/-- A runtime in which `cublasSaxpy` reports `CUBLAS_STATUS_EXECUTION_FAILED` (13)
and every other call reports success. -/
def saxpyFails : Runtime :=
  ⟨fun c => if c = Call.cublasSaxpy then 13 else 0, fun _ => F32.nan⟩

/-- A runtime in which `cudaDeviceSynchronize` reports a failure (status 719,
`cudaErrorLaunchFailure`), every other call reports success and the device
buffer holds zeros. -/
def syncFails : Runtime :=
  ⟨fun c => if c = Call.cudaDeviceSynchronize then 719 else 0, fun _ => F32.fin false 0⟩

/-- A device result that is `1.0` at the first 256 indices and `0.0` elsewhere. -/
def first256 : Vec := fun i => if i < 256 then F32.fin false (whole 1) else F32.fin false 0

/-! ## Facts about the arithmetic -/

theorem ulpAux_pos (fuel m : Nat) : 0 < ulpAux fuel m := by
  induction fuel generalizing m with
  | zero => simp [ulpAux]
  | succ f ih =>
    unfold ulpAux
    split
    · exact Nat.one_pos
    · have := ih (m / 2)
      omega

theorem ulp_pos (m : Nat) : 0 < ulp m := ulpAux_pos m m

theorem ulpAux_le (fuel m : Nat) (hm : 1 ≤ m) : ulpAux fuel m ≤ m := by
  induction fuel generalizing m with
  | zero => simpa [ulpAux] using hm
  | succ f ih =>
    unfold ulpAux
    split
    · exact hm
    · rename_i hlt
      have h24 : 2 ^ 24 ≤ m := Nat.le_of_not_lt hlt
      have h2 : 1 ≤ m / 2 := by
        have : (2 : Nat) ^ 24 = 16777216 := by norm_num
        omega
      have := ih (m / 2) h2
      omega

theorem ulp_le (m : Nat) (hm : 1 ≤ m) : ulp m ≤ m := ulpAux_le m m hm

theorem ulp_zero : ulp 0 = 1 := rfl

theorem le_nearestEven (k r u : Nat) : k ≤ nearestEven k r u := by
  unfold nearestEven
  split
  · exact Nat.le_refl k
  · split
    · exact Nat.le_succ k
    · split
      · exact Nat.le_refl k
      · exact Nat.le_succ k

theorem nearestEven_zero (k u : Nat) (hu : 0 < u) : nearestEven k 0 u = k := by
  simp [nearestEven, hu]

/-- Zero rounds to zero, whatever the denominator. -/
theorem round_zero (s : Bool) (d : Nat) (hd : 0 < d) : F32.round s 0 d = F32.fin s 0 := by
  simp [F32.round, ulp_zero, nearestEven_zero, hd, overflowMag]

/-- A representable magnitude rounds to itself. -/
theorem round_representable (s : Bool) (m : Nat) (hm : representable m) :
    F32.round s m 1 = F32.fin s m := by
  obtain ⟨hdvd, hlt⟩ := hm
  have hu := ulp_pos m
  have hmod : m % ulp m = 0 := Nat.mod_eq_zero_of_dvd hdvd
  have hmul : m / ulp m * ulp m = m := Nat.div_mul_cancel hdvd
  simp [F32.round, hmod, nearestEven_zero, hu, hmul, hlt]

/-- A positive magnitude never rounds to zero. -/
theorem round_pos (s : Bool) (m : Nat) (hm : 0 < m) :
    F32.round s m 1 = F32.inf s ∨ ∃ k, 0 < k ∧ F32.round s m 1 = F32.fin s k := by
  have hu := ulp_pos m
  have hle := ulp_le m hm
  have hk : 0 < m / ulp m := Nat.div_pos hle hu
  have hk1 := le_nearestEven (m / ulp m) (m % ulp m) (ulp m)
  simp only [F32.round, Nat.div_one, one_mul]
  split
  · exact Or.inr ⟨_, Nat.mul_pos (Nat.lt_of_lt_of_le hk hk1) hu, rfl⟩
  · exact Or.inl rfl

theorem fabs_round (s : Bool) (n d : Nat) :
    F32.fabs (F32.round s n d) = F32.round false n d := by
  unfold F32.round
  dsimp only
  split <;> rfl

set_option maxRecDepth 100000 in
/-- The literal `0.0001f` is the number `13743895 * 2^-37`. -/
theorem lit_0_0001f_eq : F32.lit_0_0001f = F32.fin false (13743895 * 2 ^ 112) := by
  decide

theorem fabs_mul_fin (r : F32) (k : Nat) (hk : k ≠ 0) :
    F32.fabs (F32.mul r (F32.fin false k)) = F32.mul (F32.fabs r) (F32.fin false k) := by
  cases r with
  | nan => rfl
  | inf s =>
    show F32.fabs (if k = 0 then F32.nan else F32.inf (xor s false)) =
      (if k = 0 then F32.nan else F32.inf (xor false false))
    rw [if_neg hk, if_neg hk]
    rfl
  | fin s m =>
    show F32.fabs (F32.round (xor s false) (m * k) (2 ^ 149)) =
      F32.round (xor false false) (m * k) (2 ^ 149)
    rw [fabs_round]
    rfl

/-- The code takes `fabs` of the product, the specification multiplies the
absolute value: the two agree, the tolerance factor being positive. -/
theorem fabs_mul_lit (r : F32) :
    F32.fabs (F32.mul r F32.lit_0_0001f) = F32.mul (F32.fabs r) F32.lit_0_0001f := by
  rw [lit_0_0001f_eq]
  exact fabs_mul_fin r _ (by norm_num)

theorem gt_nan_left (t : F32) : F32.gt F32.nan t = false := by
  cases t <;> rfl

/-- The absolute value of a number is never below zero, so zero exceeds none. -/
theorem zero_not_gt_fabs (s : Bool) (t : F32) :
    F32.gt (F32.fin s 0) (F32.fabs t) = false := by
  cases t with
  | nan => rfl
  | inf b => rfl
  | fin b k => cases s <;> simp [F32.gt, F32.fabs, F32.signed]

/-- The difference of a value with itself is `+0` or NaN, which exceeds no
absolute value. -/
theorem sub_self_not_gt (r t : F32) :
    F32.gt (F32.fabs (F32.sub r r)) (F32.fabs t) = false := by
  cases r with
  | nan => exact gt_nan_left _
  | inf s =>
    have h : F32.sub (F32.inf s) (F32.inf s) = F32.nan := by
      cases s <;> rfl
    rw [h]
    exact gt_nan_left _
  | fin s m =>
    have h : F32.sub (F32.fin s m) (F32.fin s m) = F32.fin false 0 := by
      cases s <;> simp [F32.sub, F32.neg, F32.add]
    rw [h]
    exact zero_not_gt_fabs false t

theorem verifyBody_eq (h : Host) (i : Nat) (errors : Int) :
    verifyBody h i errors =
      if exceedsTolerance (h.y_cpu_res i) (h.y_gpu_res i) = true then errors + 1 else errors := by
  simp only [verifyBody, exceedsTolerance, fabs_mul_lit]

/-- A value that equals the reference is not counted. -/
theorem exceedsTolerance_self (r : F32) : exceedsTolerance r r = false := by
  unfold exceedsTolerance
  rw [← fabs_mul_lit]
  exact sub_self_not_gt r _

/-- A zero times a finite number is a zero. -/
theorem mul_zero_fin (p t : Bool) (k : Nat) :
    F32.mul (F32.fin p 0) (F32.fin t k) = F32.fin (xor p t) 0 := by
  show F32.round (xor p t) (0 * k) (2 ^ 149) = F32.fin (xor p t) 0
  rw [Nat.zero_mul]
  exact round_zero _ _ (by positivity)

/-- A zero plus a binary32 number is that number, but for `+0 + -0`, which is `+0`. -/
theorem add_zero_fin (p t : Bool) (k : Nat) (hk : representable k) :
    F32.add (F32.fin p 0) (F32.fin t k) = F32.fin t k ∨
    (k = 0 ∧ t = true ∧ F32.add (F32.fin p 0) (F32.fin t k) = F32.fin false 0) := by
  by_cases hpt : p = t
  · left
    subst hpt
    show (if p = p then F32.round p (0 + k) 1 else _) = _
    rw [if_pos rfl, Nat.zero_add]
    exact round_representable p k hk
  · by_cases hk0 : k = 0
    · subst hk0
      have hadd : F32.add (F32.fin p 0) (F32.fin t 0) = F32.fin false 0 := by
        simp [F32.add, hpt]
      cases t
      · left; exact hadd
      · right; exact ⟨rfl, rfl, hadd⟩
    · left
      have hpos : 0 < k := Nat.pos_of_ne_zero hk0
      simp only [F32.add, hpt, if_false, Nat.not_lt_zero, hpos, if_true, Nat.sub_zero]
      exact round_representable t k hk

theorem eq_fin_self (t : Bool) (k : Nat) : F32.eq (F32.fin t k) (F32.fin t k) = true := by
  simp [F32.eq]

theorem eq_zero_zero (s t : Bool) : F32.eq (F32.fin s 0) (F32.fin t 0) = true := by
  cases s <;> cases t <;> simp [F32.eq, F32.signed]

/-- A finite number equal (`==`) to zero has magnitude zero. -/
theorem mag_eq_zero_of_eq (s : Bool) (m : Nat) (h : F32.eq (F32.fin s m) (F32.fin false 0) = true) :
    m = 0 := by
  cases s <;> simp [F32.eq, F32.signed] at h <;> exact h

/-- Two zeros, whatever their signs, are within the tolerance of each other. -/
theorem exceedsTolerance_zero_zero (s t : Bool) :
    exceedsTolerance (F32.fin s 0) (F32.fin t 0) = false := by
  unfold exceedsTolerance
  rw [← fabs_mul_lit]
  have hsub : ∃ b, F32.sub (F32.fin s 0) (F32.fin t 0) = F32.fin b 0 := by
    cases s <;> cases t <;> simp [F32.sub, F32.neg, F32.add, round_zero]
  obtain ⟨b, hb⟩ := hsub
  rw [hb]
  exact zero_not_gt_fabs false _

/-- Against a reference of zero the test is `res != 0`, for every device result
that is a number. -/
theorem exceedsTolerance_zero_ref (s : Bool) (g : F32) (hg : g ≠ F32.nan) :
    exceedsTolerance (F32.fin s 0) g = true ↔ F32.ne g (F32.fin false 0) = true := by
  have htol : F32.mul (F32.fabs (F32.fin s 0)) F32.lit_0_0001f = F32.fin false 0 := by
    rw [lit_0_0001f_eq]
    exact mul_zero_fin false false _
  unfold exceedsTolerance
  rw [htol]
  cases g with
  | nan => exact absurd rfl hg
  | inf t => cases s <;> cases t <;> simp [F32.sub, F32.neg, F32.add, F32.fabs, F32.gt, F32.ne, F32.eq]
  | fin t k =>
    by_cases hk0 : k = 0
    · subst hk0
      have hsub : ∃ b, F32.sub (F32.fin s 0) (F32.fin t 0) = F32.fin b 0 := by
        cases s <;> cases t <;> simp [F32.sub, F32.neg, F32.add, round_zero]
      obtain ⟨b, hb⟩ := hsub
      rw [hb]
      simp [F32.fabs, F32.gt, F32.ne, eq_zero_zero]
    · have hpos : 0 < k := Nat.pos_of_ne_zero hk0
      have hne : F32.ne (F32.fin t k) (F32.fin false 0) = true := by
        cases t <;> simp [F32.ne, F32.eq, F32.signed, hk0]
      have hsub : ∃ b, F32.sub (F32.fin s 0) (F32.fin t k) = F32.round b k 1 := by
        by_cases hst : s = !t
        · exact ⟨s, by simp [F32.sub, F32.neg, F32.add, hst]⟩
        · exact ⟨!t, by simp [F32.sub, F32.neg, F32.add, hst, hpos]⟩
      obtain ⟨b, hb⟩ := hsub
      rw [hb]
      rcases round_pos b k hpos with hinf | ⟨k', hk', hfin⟩
      · rw [hinf]
        simp [F32.fabs, F32.gt, hne]
      · rw [hfin]
        simp [F32.fabs, F32.gt, F32.signed, hne, hk']

/-! ## Facts about the two loops -/

theorem refLoop_x (n : Nat) (a : Finite32) (h : Host) : (refLoop n a h).x = h.x := by
  induction n with
  | zero => rfl
  | succ k ih => simpa [refLoop, forLoop, refBody] using ih

theorem refLoop_y (n : Nat) (a : Finite32) (h : Host) : (refLoop n a h).y = h.y := by
  induction n with
  | zero => rfl
  | succ k ih => simpa [refLoop, forLoop, refBody] using ih

theorem refLoop_y_gpu_res (n : Nat) (a : Finite32) (h : Host) :
    (refLoop n a h).y_gpu_res = h.y_gpu_res := by
  induction n with
  | zero => rfl
  | succ k ih => simpa [refLoop, forLoop, refBody] using ih

/-- After the reference loop, the first `n` elements of `y_cpu_res` hold the
reference values and the others are as before. -/
theorem refLoop_y_cpu_res (n : Nat) (a : Finite32) (h : Host) (i : Nat) :
    (refLoop n a h).y_cpu_res i = if i < n then refValue a h i else h.y_cpu_res i := by
  induction n with
  | zero => simp [refLoop, forLoop]
  | succ k ih =>
    have hx := refLoop_x k a h
    have hy := refLoop_y k a h
    simp only [refLoop] at ih hx hy
    simp only [refLoop, forLoop, refBody, hx, hy]
    by_cases hik : i = k
    · subst hik
      simp [refValue]
    · rw [Function.update_noteq hik, ih]
      by_cases hlt : i < k
      · simp [hlt, Nat.lt_succ_of_lt hlt]
      · have : ¬ i < k + 1 := by omega
        simp [hlt, this]

/-- The verification loop counts the indices at which its test holds. -/
theorem verifyLoop_eq_card (n : Nat) (h : Host) :
    verifyLoop n h =
      (((Finset.range n).filter
        (fun i => exceedsTolerance (h.y_cpu_res i) (h.y_gpu_res i) = true)).card : Int) := by
  induction n with
  | zero => simp [verifyLoop, forLoop]
  | succ k ih =>
    simp only [verifyLoop] at ih
    simp only [verifyLoop, forLoop, verifyBody_eq, ih, Finset.range_succ, Finset.filter_insert]
    split
    · rw [Finset.card_insert_of_not_mem (by simp)]
      push_cast
      ring
    · rfl

/-- The count lies between 0 and the number of elements, so for the problem
size of the source (`512000 < 2^31`) the `int` counter never overflows. -/
theorem verifyLoop_bounds (n : Nat) (h : Host) :
    0 ≤ verifyLoop n h ∧ verifyLoop n h ≤ (n : Int) := by
  rw [verifyLoop_eq_card]
  constructor
  · exact Int.natCast_nonneg _
  · have hle := Finset.card_filter_le (Finset.range n)
      (fun i => exceedsTolerance (h.y_cpu_res i) (h.y_gpu_res i) = true)
    rw [Finset.card_range] at hle
    exact_mod_cast hle

/-! ## Facts about `main` -/

/-- When every checked call succeeds, all twelve calls are issued in order and
`main` returns what the verification loop counted. -/
theorem main_of_ok (n : Nat) (a : Finite32) (h : Host) (rt : Runtime)
    (hok : ∀ c : Call, c.checked → rt.status c = c.success) :
    main n a h rt =
      ⟨callSeq, Outcome.ret (verifyLoop n (refLoop n a (afterTransfer n h rt)))⟩ := by
  have h1 := hok Call.cudaGetDeviceProperties (by decide)
  have h2 := hok Call.cudaMalloc_x (by decide)
  have h3 := hok Call.cudaMalloc_y (by decide)
  have h4 := hok Call.cublasCreate (by decide)
  have h5 := hok Call.cublasSetVector_x (by decide)
  have h6 := hok Call.cublasSetVector_y (by decide)
  have h7 := hok Call.cublasSaxpy (by decide)
  have h8 := hok Call.cublasGetVector (by decide)
  have h9 := hok Call.cudaFree_x (by decide)
  have h10 := hok Call.cudaFree_y (by decide)
  have h11 := hok Call.cublasDestroy (by decide)
  simp only [Call.success] at h1 h2 h3 h4 h5 h6 h7 h8 h9 h10 h11
  simp [main, CHECK, CHECK_BLAS, unchecked, h1, h2, h3, h4, h5, h6, h7, h8, h9, h10, h11,
    callSeq, afterTransfer]

theorem CHECK_ok {rt : Runtime} {cmd : Call} (rest : Result) (h : rt.status cmd = 0) :
    CHECK rt cmd rest = ⟨cmd :: rest.trace, rest.outcome⟩ := by
  simp [CHECK, cudaSuccess, h]

theorem CHECK_fail {rt : Runtime} {cmd : Call} (rest : Result) (h : ¬ rt.status cmd = 0) :
    CHECK rt cmd rest = ⟨[cmd], Outcome.exit EXIT_FAILURE⟩ := by
  simp [CHECK, cudaSuccess, h]

theorem CHECK_BLAS_ok {rt : Runtime} {cmd : Call} (rest : Result) (h : rt.status cmd = 0) :
    CHECK_BLAS rt cmd rest = ⟨cmd :: rest.trace, rest.outcome⟩ := by
  simp [CHECK_BLAS, CUBLAS_STATUS_SUCCESS, h]

theorem CHECK_BLAS_fail {rt : Runtime} {cmd : Call} (rest : Result)
    (h : ¬ rt.status cmd = 0) :
    CHECK_BLAS rt cmd rest = ⟨[cmd], Outcome.exit EXIT_FAILURE⟩ := by
  simp [CHECK_BLAS, CUBLAS_STATUS_SUCCESS, h]

/-- The position of a call is its place in `callSeq`. -/
theorem callSeq_index (c : Call) : callSeq.get? c.index = some c := by
  cases c <;> rfl

/-- The control flow of `main` spelled out: the run stops at the first checked
call whose status is not the success status, with the calls issued so far. -/
theorem main_eq_chain (n : Nat) (a : Finite32) (h : Host) (rt : Runtime) :
    main n a h rt =
      if rt.status Call.cudaGetDeviceProperties ≠ 0 then
        ⟨callSeq.take 1, Outcome.exit EXIT_FAILURE⟩
      else if rt.status Call.cudaMalloc_x ≠ 0 then
        ⟨callSeq.take 2, Outcome.exit EXIT_FAILURE⟩
      else if rt.status Call.cudaMalloc_y ≠ 0 then
        ⟨callSeq.take 3, Outcome.exit EXIT_FAILURE⟩
      else if rt.status Call.cublasCreate ≠ 0 then
        ⟨callSeq.take 4, Outcome.exit EXIT_FAILURE⟩
      else if rt.status Call.cublasSetVector_x ≠ 0 then
        ⟨callSeq.take 5, Outcome.exit EXIT_FAILURE⟩
      else if rt.status Call.cublasSetVector_y ≠ 0 then
        ⟨callSeq.take 6, Outcome.exit EXIT_FAILURE⟩
      else if rt.status Call.cublasSaxpy ≠ 0 then
        ⟨callSeq.take 7, Outcome.exit EXIT_FAILURE⟩
      else if rt.status Call.cublasGetVector ≠ 0 then
        ⟨callSeq.take 9, Outcome.exit EXIT_FAILURE⟩
      else if rt.status Call.cudaFree_x ≠ 0 then
        ⟨callSeq.take 10, Outcome.exit EXIT_FAILURE⟩
      else if rt.status Call.cudaFree_y ≠ 0 then
        ⟨callSeq.take 11, Outcome.exit EXIT_FAILURE⟩
      else if rt.status Call.cublasDestroy ≠ 0 then
        ⟨callSeq.take 12, Outcome.exit EXIT_FAILURE⟩
      else
        ⟨callSeq, Outcome.ret (verifyLoop n (refLoop n a (afterTransfer n h rt)))⟩ := by
  by_cases h1 : rt.status Call.cudaGetDeviceProperties = 0
  swap
  · rw [if_pos h1]
    simp only [main, unchecked, CHECK_fail _ h1]
    rfl
  rw [if_neg (not_not.mpr h1)]
  by_cases h2 : rt.status Call.cudaMalloc_x = 0
  swap
  · rw [if_pos h2]
    simp only [main, unchecked, CHECK_ok _ h1, CHECK_fail _ h2]
    rfl
  rw [if_neg (not_not.mpr h2)]
  by_cases h3 : rt.status Call.cudaMalloc_y = 0
  swap
  · rw [if_pos h3]
    simp only [main, unchecked, CHECK_ok _ h1, CHECK_ok _ h2, CHECK_fail _ h3]
    rfl
  rw [if_neg (not_not.mpr h3)]
  by_cases h4 : rt.status Call.cublasCreate = 0
  swap
  · rw [if_pos h4]
    simp only [main, unchecked, CHECK_ok _ h1, CHECK_ok _ h2, CHECK_ok _ h3, CHECK_BLAS_fail _ h4]
    rfl
  rw [if_neg (not_not.mpr h4)]
  by_cases h5 : rt.status Call.cublasSetVector_x = 0
  swap
  · rw [if_pos h5]
    simp only [main, unchecked, CHECK_ok _ h1, CHECK_ok _ h2, CHECK_ok _ h3, CHECK_BLAS_ok _
      h4, CHECK_BLAS_fail _ h5]
    rfl
  rw [if_neg (not_not.mpr h5)]
  by_cases h6 : rt.status Call.cublasSetVector_y = 0
  swap
  · rw [if_pos h6]
    simp only [main, unchecked, CHECK_ok _ h1, CHECK_ok _ h2, CHECK_ok _ h3, CHECK_BLAS_ok _
      h4, CHECK_BLAS_ok _ h5, CHECK_BLAS_fail _ h6]
    rfl
  rw [if_neg (not_not.mpr h6)]
  by_cases h7 : rt.status Call.cublasSaxpy = 0
  swap
  · rw [if_pos h7]
    simp only [main, unchecked, CHECK_ok _ h1, CHECK_ok _ h2, CHECK_ok _ h3, CHECK_BLAS_ok _
      h4, CHECK_BLAS_ok _ h5, CHECK_BLAS_ok _ h6, CHECK_BLAS_fail _ h7]
    rfl
  rw [if_neg (not_not.mpr h7)]
  by_cases h8 : rt.status Call.cublasGetVector = 0
  swap
  · rw [if_pos h8]
    simp only [main, unchecked, CHECK_ok _ h1, CHECK_ok _ h2, CHECK_ok _ h3, CHECK_BLAS_ok _
      h4, CHECK_BLAS_ok _ h5, CHECK_BLAS_ok _ h6, CHECK_BLAS_ok _ h7, CHECK_BLAS_fail _ h8]
    rfl
  rw [if_neg (not_not.mpr h8)]
  by_cases h9 : rt.status Call.cudaFree_x = 0
  swap
  · rw [if_pos h9]
    simp only [main, unchecked, CHECK_ok _ h1, CHECK_ok _ h2, CHECK_ok _ h3, CHECK_BLAS_ok _
      h4, CHECK_BLAS_ok _ h5, CHECK_BLAS_ok _ h6, CHECK_BLAS_ok _ h7, CHECK_BLAS_ok _ h8,
      CHECK_fail _ h9]
    rfl
  rw [if_neg (not_not.mpr h9)]
  by_cases h10 : rt.status Call.cudaFree_y = 0
  swap
  · rw [if_pos h10]
    simp only [main, unchecked, CHECK_ok _ h1, CHECK_ok _ h2, CHECK_ok _ h3, CHECK_BLAS_ok _
      h4, CHECK_BLAS_ok _ h5, CHECK_BLAS_ok _ h6, CHECK_BLAS_ok _ h7, CHECK_BLAS_ok _ h8,
      CHECK_ok _ h9, CHECK_fail _ h10]
    rfl
  rw [if_neg (not_not.mpr h10)]
  by_cases h11 : rt.status Call.cublasDestroy = 0
  swap
  · rw [if_pos h11]
    simp only [main, unchecked, CHECK_ok _ h1, CHECK_ok _ h2, CHECK_ok _ h3, CHECK_BLAS_ok _
      h4, CHECK_BLAS_ok _ h5, CHECK_BLAS_ok _ h6, CHECK_BLAS_ok _ h7, CHECK_BLAS_ok _ h8,
      CHECK_ok _ h9, CHECK_ok _ h10, CHECK_BLAS_fail _ h11]
    rfl
  rw [if_neg (not_not.mpr h11)]
  simp only [main, unchecked, CHECK_ok _ h1, CHECK_ok _ h2, CHECK_ok _ h3, CHECK_BLAS_ok _
    h4, CHECK_BLAS_ok _ h5, CHECK_BLAS_ok _ h6, CHECK_BLAS_ok _ h7, CHECK_BLAS_ok _ h8,
    CHECK_ok _ h9, CHECK_ok _ h10, CHECK_BLAS_ok _ h11]
  rfl

/-- Every run either stops at a failed check, having issued the calls up to the
failing one, or issues all calls and returns the count. -/
theorem main_stops_or_returns (n : Nat) (a : Finite32) (h : Host) (rt : Runtime) :
    (∃ k, 1 ≤ k ∧ k ≤ 12 ∧
      main n a h rt = ⟨callSeq.take k, Outcome.exit EXIT_FAILURE⟩) ∨
    main n a h rt =
      ⟨callSeq, Outcome.ret (verifyLoop n (refLoop n a (afterTransfer n h rt)))⟩ := by
  rw [main_eq_chain]
  by_cases h1 : rt.status Call.cudaGetDeviceProperties = 0
  swap
  · rw [if_pos h1]
    exact Or.inl ⟨1, by decide, by decide, rfl⟩
  rw [if_neg (not_not.mpr h1)]
  by_cases h2 : rt.status Call.cudaMalloc_x = 0
  swap
  · rw [if_pos h2]
    exact Or.inl ⟨2, by decide, by decide, rfl⟩
  rw [if_neg (not_not.mpr h2)]
  by_cases h3 : rt.status Call.cudaMalloc_y = 0
  swap
  · rw [if_pos h3]
    exact Or.inl ⟨3, by decide, by decide, rfl⟩
  rw [if_neg (not_not.mpr h3)]
  by_cases h4 : rt.status Call.cublasCreate = 0
  swap
  · rw [if_pos h4]
    exact Or.inl ⟨4, by decide, by decide, rfl⟩
  rw [if_neg (not_not.mpr h4)]
  by_cases h5 : rt.status Call.cublasSetVector_x = 0
  swap
  · rw [if_pos h5]
    exact Or.inl ⟨5, by decide, by decide, rfl⟩
  rw [if_neg (not_not.mpr h5)]
  by_cases h6 : rt.status Call.cublasSetVector_y = 0
  swap
  · rw [if_pos h6]
    exact Or.inl ⟨6, by decide, by decide, rfl⟩
  rw [if_neg (not_not.mpr h6)]
  by_cases h7 : rt.status Call.cublasSaxpy = 0
  swap
  · rw [if_pos h7]
    exact Or.inl ⟨7, by decide, by decide, rfl⟩
  rw [if_neg (not_not.mpr h7)]
  by_cases h8 : rt.status Call.cublasGetVector = 0
  swap
  · rw [if_pos h8]
    exact Or.inl ⟨9, by decide, by decide, rfl⟩
  rw [if_neg (not_not.mpr h8)]
  by_cases h9 : rt.status Call.cudaFree_x = 0
  swap
  · rw [if_pos h9]
    exact Or.inl ⟨10, by decide, by decide, rfl⟩
  rw [if_neg (not_not.mpr h9)]
  by_cases h10 : rt.status Call.cudaFree_y = 0
  swap
  · rw [if_pos h10]
    exact Or.inl ⟨11, by decide, by decide, rfl⟩
  rw [if_neg (not_not.mpr h10)]
  by_cases h11 : rt.status Call.cublasDestroy = 0
  swap
  · rw [if_pos h11]
    exact Or.inl ⟨12, by decide, by decide, rfl⟩
  rw [if_neg (not_not.mpr h11)]
  exact Or.inr rfl

/-- The count of the verification loop after the reference loop, in the words of
the specification. -/
theorem verify_ref_eq_card (n : Nat) (a : Finite32) (h : Host) :
    verifyLoop n (refLoop n a h) =
      (((Finset.range n).filter
        (fun i => exceedsTolerance (refValue a h i) (h.y_gpu_res i) = true)).card : Int) := by
  rw [verifyLoop_eq_card]
  congr 2
  apply Finset.filter_congr
  intro i hi
  have hlt : i < n := Finset.mem_range.mp hi
  rw [refLoop_y_cpu_res, refLoop_y_gpu_res, if_pos hlt]

/-- A device result equal to the reference at every index gives a count of 0. -/
theorem verify_zero_of_equal (n : Nat) (a : Finite32) (h : Host)
    (heq : ∀ i, i < n → h.y_gpu_res i = refValue a h i) :
    verifyLoop n (refLoop n a h) = 0 := by
  rw [verify_ref_eq_card]
  have hset : (Finset.range n).filter
      (fun i => exceedsTolerance (refValue a h i) (h.y_gpu_res i) = true) = ∅ := by
    apply Finset.filter_false_of_mem
    intro i hi
    rw [heq i (Finset.mem_range.mp hi), exceedsTolerance_self]
    exact Bool.false_ne_true
  rw [hset]
  simp

set_option maxRecDepth 100000 in
/-- With `x[i] = y[i] = 0` the reference value `100 * 0 + 0` is `+0`. -/
theorem refValue_zeros (res : Vec) (i : Nat) : refValue a (zeros res) i = F32.fin false 0 := by
  show F32.add (F32.mul a.val f0.val) f0.val = F32.fin false 0
  decide

/-- When no call fails, `main` returns the number of mismatching indices. -/
theorem main_outcome_of_ok (n : Nat) (a : Finite32) (h : Host) (rt : Runtime)
    (hok : ∀ c : Call, c.checked → rt.status c = c.success) :
    (main n a h rt).outcome = Outcome.ret (mismatchCount n a h rt.y_gpu : Nat) := by
  rw [main_of_ok n a h rt hok, verify_ref_eq_card]
  show Outcome.ret _ = Outcome.ret _
  unfold mismatchCount
  congr 3
  apply Finset.filter_congr
  intro i hi
  have hlt : i < n := Finset.mem_range.mp hi
  simp [afterTransfer, copy_n, hlt, refValue]

theorem mismatchCount_le (n : Nat) (a : Finite32) (h : Host) (res : Vec) :
    mismatchCount n a h res ≤ n := by
  have hle := Finset.card_filter_le (Finset.range n)
    (fun i => exceedsTolerance (refValue a h i) (res i) = true)
  rw [Finset.card_range] at hle
  exact hle

set_option maxRecDepth 100000 in
/-- The scalar `a` is the literal `100.0f`. -/
theorem a_val_eq_lit : a.val = F32.lit_100f := by
  decide

/-! ## The claims -/

/-! ### C1, C2: the returned count and the fatal checks -/

/-- C1: on a run in which no runtime call fails, the value `main` returns equals
the number of indices `i < n` with `|ref i - res i| > |ref i| * 0.0001`, where
`ref i = a * x[i] + y[i]` is computed from the host vectors as generated and `res`
is the device result. -/
theorem C1_main_returns_mismatch_count (n : Nat) (a : Finite32) (h : Host) (rt : Runtime)
    (hok : ∀ c : Call, rt.status c = c.success) :
    (main n a h rt).outcome =
      Outcome.ret (((Finset.range n).filter
        (fun i => F32.gt (F32.fabs (F32.sub (refValue a h i) (rt.y_gpu i)))
          (F32.mul (F32.fabs (refValue a h i)) F32.lit_0_0001f) = true)).card : Nat) :=
  main_outcome_of_ok n a h rt (fun c _ => hok c)

set_option maxRecDepth 100000 in
/-- Witness of C1: the two-element scenario with the device result
`[110.0, 0.0]`, in which every call succeeds; one index mismatches. -/
theorem C1_witness :
    (∀ c : Call, (okRuntime corrupted).status c = c.success) ∧
    (main 2 a (scenario (fun _ => F32.nan)) (okRuntime corrupted)).outcome =
      Outcome.ret (((Finset.range 2).filter
        (fun i => F32.gt (F32.fabs (F32.sub (refValue a (scenario (fun _ => F32.nan)) i)
            ((okRuntime corrupted).y_gpu i)))
          (F32.mul (F32.fabs (refValue a (scenario (fun _ => F32.nan)) i)) F32.lit_0_0001f)
            = true)).card : Nat) ∧
    (main 2 a (scenario (fun _ => F32.nan)) (okRuntime corrupted)).outcome = Outcome.ret 1 :=
  ⟨fun c => by cases c <;> rfl,
   C1_main_returns_mismatch_count 2 a (scenario (fun _ => F32.nan)) (okRuntime corrupted)
    (fun c => by cases c <;> rfl),
   by decide⟩

/-- C2: if a checked runtime call is the first to report a status other than
success, the run ends at that call with `exit(EXIT_FAILURE)` (so no count is
returned), the calls issued are exactly those up to it in program order, no
later call is issued, and the failing call is issued once (no retry). -/
theorem C2_first_failure_is_fatal (n : Nat) (a : Finite32) (h : Host) (rt : Runtime)
    (c : Call) (hc : c.checked)
    (hfirst : ∀ c' : Call, c'.checked → c'.index < c.index → rt.status c' = c'.success)
    (hfail : rt.status c ≠ c.success) :
    (main n a h rt).outcome = Outcome.exit EXIT_FAILURE ∧
    (main n a h rt).trace = callSeq.take (c.index + 1) ∧
    (∀ c' : Call, c.index < c'.index → c' ∉ (main n a h rt).trace) ∧
    (main n a h rt).trace.count c = 1 := by
  have h1 := hfirst Call.cudaGetDeviceProperties (by decide)
  have h2 := hfirst Call.cudaMalloc_x (by decide)
  have h3 := hfirst Call.cudaMalloc_y (by decide)
  have h4 := hfirst Call.cublasCreate (by decide)
  have h5 := hfirst Call.cublasSetVector_x (by decide)
  have h6 := hfirst Call.cublasSetVector_y (by decide)
  have h7 := hfirst Call.cublasSaxpy (by decide)
  have h8 := hfirst Call.cublasGetVector (by decide)
  have h9 := hfirst Call.cudaFree_x (by decide)
  have h10 := hfirst Call.cudaFree_y (by decide)
  have h11 := hfirst Call.cublasDestroy (by decide)
  rw [main_eq_chain]
  cases c
  case cudaDeviceSynchronize => exact absurd rfl hc
  all_goals
    simp only [Call.success, cudaSuccess, CUBLAS_STATUS_SUCCESS] at hfail
    simp [Call.index, Call.success, cudaSuccess, CUBLAS_STATUS_SUCCESS]
      at h1 h2 h3 h4 h5 h6 h7 h8 h9 h10 h11
    refine ⟨?_, ?_, ?_, ?_⟩
    · simp [*]
    · simp [Call.index, *]
    · intro c' hc'
      cases c' <;> simp [Call.index] at hc' <;> simp [callSeq, *]
    · simp [callSeq, *]

/-- Witness of C2: `cublasSaxpy` is the first call to fail. -/
theorem C2_witness :
    Call.cublasSaxpy.checked ∧
    (∀ c' : Call, c'.checked → c'.index < Call.cublasSaxpy.index →
      saxpyFails.status c' = c'.success) ∧
    saxpyFails.status Call.cublasSaxpy ≠ Call.cublasSaxpy.success ∧
    (main N a (zeros (fun _ => F32.nan)) saxpyFails).outcome = Outcome.exit EXIT_FAILURE ∧
    (main N a (zeros (fun _ => F32.nan)) saxpyFails).trace
      = callSeq.take (Call.cublasSaxpy.index + 1) ∧
    (∀ c' : Call, Call.cublasSaxpy.index < c'.index →
      c' ∉ (main N a (zeros (fun _ => F32.nan)) saxpyFails).trace) ∧
    (main N a (zeros (fun _ => F32.nan)) saxpyFails).trace.count Call.cublasSaxpy = 1 :=
  ⟨by decide,
   fun c' _ hlt => by cases c' <;> first | rfl | exact absurd hlt (by decide),
   by decide,
   C2_first_failure_is_fatal N a (zeros (fun _ => F32.nan)) saxpyFails Call.cublasSaxpy
    (by decide)
    (fun c' _ hlt => by cases c' <;> first | rfl | exact absurd hlt (by decide))
    (by decide)⟩

/-! ### C4, C5: a device result that equals the reference -/

/-- C4: if the device result equals the reference at every index but `k`, and
exceeds the tolerance at `k`, the verification loop counts exactly 1 and `k` is
the only index at which it increments the count. -/
theorem C4_single_corruption_counts_one (n : Nat) (a : Finite32) (h : Host) (k : Nat)
    (hk : k < n)
    (hothers : ∀ i, i < n → i ≠ k → h.y_gpu_res i = refValue a h i)
    (hbad : exceedsTolerance (refValue a h k) (h.y_gpu_res k) = true) :
    verifyLoop n (refLoop n a h) = 1 ∧
    ∀ i, i < n → ∀ errors : Int,
      (verifyBody (refLoop n a h) i errors = errors + 1 ↔ i = k) := by
  have key : ∀ i, i < n →
      (exceedsTolerance (refValue a h i) (h.y_gpu_res i) = true ↔ i = k) := by
    intro i hi
    constructor
    · intro hex
      by_contra hne
      rw [hothers i hi hne, exceedsTolerance_self] at hex
      exact Bool.false_ne_true hex
    · intro hik
      rw [hik]
      exact hbad
  constructor
  · rw [verify_ref_eq_card]
    have hset : (Finset.range n).filter
        (fun i => exceedsTolerance (refValue a h i) (h.y_gpu_res i) = true) = {k} := by
      ext i
      simp only [Finset.mem_filter, Finset.mem_range, Finset.mem_singleton]
      constructor
      · rintro ⟨hi, hex⟩
        exact (key i hi).mp hex
      · intro hik
        subst hik
        exact ⟨hk, hbad⟩
    rw [hset]
    simp
  · intro i hi errors
    rw [verifyBody_eq, refLoop_y_cpu_res, refLoop_y_gpu_res, if_pos hi]
    rw [← key i hi]
    split
    · simp [*]
    · simp [*]

/-- C5: for every length (so for every length of at least 1), if the device
result equals the reference `a * x[i] + y[i]` at every index, the mismatch count
is 0. -/
theorem C5_equal_result_counts_zero (n : Nat) (a : Finite32) (h : Host)
    (heq : ∀ i, i < n → h.y_gpu_res i = refValue a h i) :
    verifyLoop n (refLoop n a h) = 0 :=
  verify_zero_of_equal n a h heq

set_option maxRecDepth 100000 in
/-- Witness of C4: the scenario with the device result `[110.0, 0.0]`, corrupted
at index 1. -/
theorem C4_witness :
    1 < 2 ∧
    (∀ i, i < 2 → i ≠ 1 → (scenario corrupted).y_gpu_res i = refValue a (scenario corrupted) i) ∧
    exceedsTolerance (refValue a (scenario corrupted) 1) ((scenario corrupted).y_gpu_res 1)
      = true ∧
    verifyLoop 2 (refLoop 2 a (scenario corrupted)) = 1 ∧
    ∀ i, i < 2 → ∀ errors : Int,
      (verifyBody (refLoop 2 a (scenario corrupted)) i errors = errors + 1 ↔ i = 1) :=
  have hothers : ∀ i, i < 2 → i ≠ 1 →
      (scenario corrupted).y_gpu_res i = refValue a (scenario corrupted) i := by
    intro i hi hne
    have h0 : i = 0 := by omega
    subst h0
    decide
  have hbad : exceedsTolerance (refValue a (scenario corrupted) 1)
      ((scenario corrupted).y_gpu_res 1) = true := by decide
  ⟨by decide, hothers, hbad,
   C4_single_corruption_counts_one 2 a (scenario corrupted) 1 (by decide) hothers hbad⟩

set_option maxRecDepth 100000 in
/-- Witness of C5, the scenario of the specification: `x = [1.0, 2.0]`,
`y = [10.0, 20.0]`, `a = 100.0` give the reference vector `[110.0, 220.0]`, and
with the device result `[110.0, 220.0]` the count is 0. -/
theorem C5_witness :
    (∀ i, i < 2 → (scenario expected).y_gpu_res i = refValue a (scenario expected) i) ∧
    (refLoop 2 a (scenario expected)).y_cpu_res 0 = F32.ofNat 110 ∧
    (refLoop 2 a (scenario expected)).y_cpu_res 1 = F32.ofNat 220 ∧
    verifyLoop 2 (refLoop 2 a (scenario expected)) = 0 :=
  have heq : ∀ i, i < 2 →
      (scenario expected).y_gpu_res i = refValue a (scenario expected) i := by
    intro i hi
    have h01 : i = 0 ∨ i = 1 := by omega
    rcases h01 with h0 | h1
    · subst h0; decide
    · subst h1; decide
  ⟨heq, by decide, by decide, C5_equal_result_counts_zero 2 a (scenario expected) heq⟩

/-! ### C6, C7: zero scalar and zero reference -/

/-- C6: with the scalar `a = 0`, the reference loop leaves in `y_cpu_res` a value
equal (`==`) to the original `y[i]` at every index, identical to it unless
`y[i]` is `-0`; and when the device result equals the original `y`, the
mismatch count is 0. -/
theorem C6_zero_scalar_reference_is_y (n : Nat) (a : Finite32) (h : Host)
    (ha : F32.eq a.val (F32.fin false 0) = true) :
    (∀ i, i < n →
      F32.eq ((refLoop n a h).y_cpu_res i) (h.y i).val = true ∧
      ((h.y i).val ≠ F32.fin true 0 → (refLoop n a h).y_cpu_res i = (h.y i).val)) ∧
    ((∀ i, i < n → h.y_gpu_res i = (h.y i).val) → verifyLoop n (refLoop n a h) = 0) := by
  have hmag : a.mag = 0 := mag_eq_zero_of_eq a.neg a.mag ha
  have href : ∀ i, refValue a h i = (h.y i).val ∨
      ((h.y i).mag = 0 ∧ (h.y i).neg = true ∧ refValue a h i = F32.fin false 0) := by
    intro i
    have hmul : F32.mul a.val (h.x i).val = F32.fin (xor a.neg (h.x i).neg) 0 := by
      simp only [Finite32.val, hmag]
      exact mul_zero_fin _ _ _
    simp only [refValue, hmul]
    exact add_zero_fin _ (h.y i).neg (h.y i).mag (h.y i).ok
  constructor
  · intro i hi
    rw [refLoop_y_cpu_res, if_pos hi]
    rcases href i with hsame | ⟨hm, hs, hzero⟩
    · rw [hsame]
      exact ⟨eq_fin_self _ _, fun _ => rfl⟩
    · rw [hzero]
      simp only [Finite32.val, hm, hs]
      exact ⟨eq_zero_zero _ _, fun hne => absurd rfl hne⟩
  · intro hres
    rw [verify_ref_eq_card]
    have hset : (Finset.range n).filter
        (fun i => exceedsTolerance (refValue a h i) (h.y_gpu_res i) = true) = ∅ := by
      apply Finset.filter_false_of_mem
      intro i hi
      rw [hres i (Finset.mem_range.mp hi)]
      rcases href i with hsame | ⟨hm, hs, hzero⟩
      · rw [hsame, exceedsTolerance_self]
        exact Bool.false_ne_true
      · rw [hzero]
        simp only [Finite32.val, hm]
        rw [exceedsTolerance_zero_zero]
        exact Bool.false_ne_true
    rw [hset]
    simp

set_option maxRecDepth 100000 in
/-- Witness of C6: the scalar `0.0f` on the scenario `x = [1.0, 2.0]`,
`y = [10.0, 20.0]`, with the device result `[10.0, 20.0]`: the count is 0. -/
theorem C6_witness :
    F32.eq f0.val (F32.fin false 0) = true ∧
    (∀ i, i < 2 → (scenario yOfScenario).y_gpu_res i = ((scenario yOfScenario).y i).val) ∧
    verifyLoop 2 (refLoop 2 f0 (scenario yOfScenario)) = 0 ∧
    ((∀ i, i < 2 →
      F32.eq ((refLoop 2 f0 (scenario yOfScenario)).y_cpu_res i)
        ((scenario yOfScenario).y i).val = true ∧
      (((scenario yOfScenario).y i).val ≠ F32.fin true 0 →
        (refLoop 2 f0 (scenario yOfScenario)).y_cpu_res i
          = ((scenario yOfScenario).y i).val)) ∧
    ((∀ i, i < 2 → (scenario yOfScenario).y_gpu_res i = ((scenario yOfScenario).y i).val) →
      verifyLoop 2 (refLoop 2 f0 (scenario yOfScenario)) = 0)) :=
  have hres : ∀ i, i < 2 →
      (scenario yOfScenario).y_gpu_res i = ((scenario yOfScenario).y i).val := by
    intro i hi
    have h01 : i = 0 ∨ i = 1 := by omega
    rcases h01 with h0 | h1
    · subst h0; decide
    · subst h1; decide
  ⟨by decide, hres, by decide,
   C6_zero_scalar_reference_is_y 2 f0 (scenario yOfScenario) (by decide)⟩

set_option maxRecDepth 100000 in
/-- Counterexample to C7 as stated: with `x[0] = y[0] = 0` the reference value is
exactly zero; a device result of NaN is not equal to zero (`NaN != 0` holds), yet
the verification loop does not count the index. -/
theorem C7_counterexample_nan :
    F32.eq (refValue a (zeros (fun _ => F32.nan)) 0) (F32.fin false 0) = true ∧
    F32.ne ((zeros (fun _ => F32.nan)).y_gpu_res 0) (F32.fin false 0) = true ∧
    verifyBody (refLoop 1 a (zeros (fun _ => F32.nan))) 0 0 = 0 ∧
    ¬ (verifyBody (refLoop 1 a (zeros (fun _ => F32.nan))) 0 0 = 0 + 1 ↔
        F32.ne ((zeros (fun _ => F32.nan)).y_gpu_res 0) (F32.fin false 0) = true) := by
  decide

/-- C7, amended: at every index `i < n` the verification loop counts `i` exactly
when `|ref - res| > |ref| * 0.0001f`, where `ref = a * x[i] + y[i]`: the tolerance
is the magnitude of the reference value times `0.0001f`, whatever the device
result is, also when the device result is replaced by any other vector. At an
index whose reference value is exactly zero and whose device result is a number
(not NaN), the loop therefore counts the index if and only if the device result
is not equal to zero. -/
theorem C7_zero_reference_is_exact_check (n : Nat) (a : Finite32) (h : Host) :
    (∀ i, i < n → ∀ errors : Int, verifyBody (refLoop n a h) i errors =
      if F32.gt (F32.fabs (F32.sub (refValue a h i) (h.y_gpu_res i)))
          (F32.mul (F32.fabs (refValue a h i)) F32.lit_0_0001f) = true
      then errors + 1 else errors) ∧
    (∀ (res : Vec) (i : Nat), i < n → ∀ errors : Int,
      verifyBody (refLoop n a { h with y_gpu_res := res }) i errors =
        if F32.gt (F32.fabs (F32.sub (refValue a h i) (res i)))
            (F32.mul (F32.fabs (refValue a h i)) F32.lit_0_0001f) = true
        then errors + 1 else errors) ∧
    (∀ i, i < n → F32.eq (refValue a h i) (F32.fin false 0) = true →
      h.y_gpu_res i ≠ F32.nan →
      ∀ errors : Int, verifyBody (refLoop n a h) i errors = errors + 1 ↔
        F32.ne (h.y_gpu_res i) (F32.fin false 0) = true) := by
  have hbody : ∀ (g : Host) (i : Nat), i < n → ∀ errors : Int,
      verifyBody (refLoop n a g) i errors =
        if exceedsTolerance (refValue a g i) (g.y_gpu_res i) = true
        then errors + 1 else errors := by
    intro g i hi errors
    rw [verifyBody_eq, refLoop_y_cpu_res, refLoop_y_gpu_res, if_pos hi]
  refine ⟨hbody h, ?_, ?_⟩
  · intro res i hi errors
    exact hbody { h with y_gpu_res := res } i hi errors
  · intro i hi hzero hnum errors
    rw [hbody h i hi]
    obtain ⟨s, hs⟩ : ∃ s, refValue a h i = F32.fin s 0 := by
      cases hr : refValue a h i with
      | nan => rw [hr] at hzero; simp [F32.eq] at hzero
      | inf b => rw [hr] at hzero; simp [F32.eq] at hzero
      | fin b m =>
        rw [hr] at hzero
        exact ⟨b, by rw [mag_eq_zero_of_eq b m hzero]⟩
    rw [hs, ← exceedsTolerance_zero_ref s _ hnum]
    split
    · simp [*]
    · simp [*]

set_option maxRecDepth 100000 in
/-- Witness of C7: with `x[0] = y[0] = 0` and a device result of `1.0` the index
is counted, the device result being a number other than zero; and in the
scenario with the device result `[110.0, 0.0]` the reference at index 1 is
`220.0` and the test there is the one scaled by the reference. -/
theorem C7_witness :
    0 < 1 ∧
    F32.eq (refValue a (zeros first256) 0) (F32.fin false 0) = true ∧
    (zeros first256).y_gpu_res 0 ≠ F32.nan ∧
    (∀ errors : Int, verifyBody (refLoop 1 a (zeros first256)) 0 errors = errors + 1 ↔
      F32.ne ((zeros first256).y_gpu_res 0) (F32.fin false 0) = true) ∧
    1 < 2 ∧
    refValue a (scenario corrupted) 1 = F32.ofNat 220 ∧
    (∀ errors : Int, verifyBody (refLoop 2 a (scenario corrupted)) 1 errors =
      if F32.gt (F32.fabs (F32.sub (refValue a (scenario corrupted) 1)
            ((scenario corrupted).y_gpu_res 1)))
          (F32.mul (F32.fabs (refValue a (scenario corrupted) 1)) F32.lit_0_0001f) = true
      then errors + 1 else errors) ∧
    verifyBody (refLoop 2 a (scenario corrupted)) 1 0 = 1 :=
  ⟨by decide, by decide, by decide,
   (C7_zero_reference_is_exact_check 1 a (zeros first256)).2.2 0 (by decide) (by decide)
    (by decide),
   by decide, by decide,
   (C7_zero_reference_is_exact_check 2 a (scenario corrupted)).1 1 (by decide),
   by decide⟩

/-! ### C9: the reference loop is idempotent -/

/-- C9: whatever `y_cpu_res` held before, running the reference loop twice
gives the same host state as running it once; the loop leaves `x` and `y`
unchanged; and the elements it writes depend on `x`, `y` and `a` only. -/
theorem C9_reference_loop_idempotent (n : Nat) (a : Finite32) (h : Host) :
    refLoop n a (refLoop n a h) = refLoop n a h ∧
    (refLoop n a h).x = h.x ∧
    (refLoop n a h).y = h.y ∧
    (∀ h' : Host, h'.x = h.x → h'.y = h.y →
      ∀ i, i < n → (refLoop n a h').y_cpu_res i = (refLoop n a h).y_cpu_res i) := by
  refine ⟨?_, refLoop_x n a h, refLoop_y n a h, ?_⟩
  · apply Host.ext
    · rw [refLoop_x, refLoop_x]
    · rw [refLoop_y, refLoop_y]
    · funext i
      rw [refLoop_y_cpu_res n a (refLoop n a h)]
      by_cases hi : i < n
      · rw [if_pos hi, refLoop_y_cpu_res, if_pos hi]
        simp only [refValue, refLoop_x, refLoop_y]
      · rw [if_neg hi]
    · rw [refLoop_y_gpu_res, refLoop_y_gpu_res]
  · intro h' hx hy i hi
    rw [refLoop_y_cpu_res, refLoop_y_cpu_res, if_pos hi, if_pos hi]
    simp only [refValue, hx, hy]

/-! ### C8, C10: release of the buffers and the synchronization -/

set_option maxRecDepth 100000 in
/-- Counterexample to C8 as stated: when `cublasSaxpy` fails, both buffers have
been allocated successfully, the process exits, and no `cudaFree` was issued. -/
theorem C8_counterexample_saxpy_failure :
    saxpyFails.status Call.cudaMalloc_x = cudaSuccess ∧
    saxpyFails.status Call.cudaMalloc_y = cudaSuccess ∧
    Call.cudaMalloc_x ∈ (main N a (zeros (fun _ => F32.nan)) saxpyFails).trace ∧
    Call.cudaMalloc_y ∈ (main N a (zeros (fun _ => F32.nan)) saxpyFails).trace ∧
    (main N a (zeros (fun _ => F32.nan)) saxpyFails).outcome = Outcome.exit EXIT_FAILURE ∧
    (main N a (zeros (fun _ => F32.nan)) saxpyFails).trace.count Call.cudaFree_x = 0 ∧
    (main N a (zeros (fun _ => F32.nan)) saxpyFails).trace.count Call.cudaFree_y = 0 := by
  rw [main_eq_chain]
  decide

/-- C8, amended: in every run in which `main` returns (no checked call failed),
all calls were issued in program order, so each device buffer was allocated
once and released by `cudaFree` exactly once, after the transfer-out; and in no
run at all is a buffer released more than once. -/
theorem C8_buffers_released_once_on_return (n : Nat) (a : Finite32) (h : Host)
    (rt : Runtime) (v : Int) (hret : (main n a h rt).outcome = Outcome.ret v) :
    (main n a h rt).trace = callSeq ∧
    (main n a h rt).trace.count Call.cudaMalloc_x = 1 ∧
    (main n a h rt).trace.count Call.cudaFree_x = 1 ∧
    (main n a h rt).trace.count Call.cudaMalloc_y = 1 ∧
    (main n a h rt).trace.count Call.cudaFree_y = 1 ∧
    (∀ (h' : Host) (rt' : Runtime),
      (main n a h' rt').trace.count Call.cudaFree_x ≤ 1 ∧
      (main n a h' rt').trace.count Call.cudaFree_y ≤ 1) := by
  have htrace : (main n a h rt).trace = callSeq := by
    rcases main_stops_or_returns n a h rt with ⟨k, _, _, hk⟩ | hall
    · rw [hk] at hret
      exact absurd hret (by simp)
    · rw [hall]
  refine ⟨htrace, ?_, ?_, ?_, ?_, ?_⟩
  · rw [htrace]; decide
  · rw [htrace]; decide
  · rw [htrace]; decide
  · rw [htrace]; decide
  · intro h' rt'
    rcases main_stops_or_returns n a h' rt' with ⟨k, hk1, hk12, hk⟩ | hall
    · rw [hk]
      show List.count Call.cudaFree_x (callSeq.take k) ≤ 1 ∧
        List.count Call.cudaFree_y (callSeq.take k) ≤ 1
      interval_cases k <;> exact ⟨by decide, by decide⟩
    · rw [hall]
      show List.count Call.cudaFree_x callSeq ≤ 1 ∧ List.count Call.cudaFree_y callSeq ≤ 1
      exact ⟨by decide, by decide⟩

set_option maxRecDepth 100000 in
/-- Witness of C8: the scenario with every call succeeding returns 0. -/
theorem C8_witness :
    (main 2 a (scenario expected) (okRuntime expected)).outcome = Outcome.ret 0 ∧
    (main 2 a (scenario expected) (okRuntime expected)).trace = callSeq ∧
    (main 2 a (scenario expected) (okRuntime expected)).trace.count Call.cudaMalloc_x = 1 ∧
    (main 2 a (scenario expected) (okRuntime expected)).trace.count Call.cudaFree_x = 1 ∧
    (main 2 a (scenario expected) (okRuntime expected)).trace.count Call.cudaMalloc_y = 1 ∧
    (main 2 a (scenario expected) (okRuntime expected)).trace.count Call.cudaFree_y = 1 ∧
    (∀ (h' : Host) (rt' : Runtime),
      (main 2 a h' rt').trace.count Call.cudaFree_x ≤ 1 ∧
      (main 2 a h' rt').trace.count Call.cudaFree_y ≤ 1) :=
  ⟨by decide,
   C8_buffers_released_once_on_return 2 a (scenario expected) (okRuntime expected) 0
    (by decide)⟩

/-- C10, the run that breaks it: `cudaDeviceSynchronize` reports a failure, the
status is discarded, `cublasGetVector` is issued right after it, and the run
goes on to return a count. -/
theorem C10_transfer_out_after_failed_synchronize :
    syncFails.status Call.cudaDeviceSynchronize ≠ cudaSuccess ∧
    (main N a (zeros (fun _ => F32.nan)) syncFails).trace = callSeq ∧
    callSeq.get? 6 = some Call.cublasSaxpy ∧
    callSeq.get? 7 = some Call.cudaDeviceSynchronize ∧
    callSeq.get? 8 = some Call.cublasGetVector ∧
    (main N a (zeros (fun _ => F32.nan)) syncFails).outcome = Outcome.ret 0 := by
  have hok : ∀ c : Call, c.checked → syncFails.status c = c.success := by
    intro c hc
    cases c <;> first | rfl | exact absurd rfl hc
  have hzero : verifyLoop N (refLoop N a (afterTransfer N (zeros (fun _ => F32.nan)) syncFails))
      = 0 := by
    apply verify_zero_of_equal
    intro i hi
    rw [show refValue a (afterTransfer N (zeros (fun _ => F32.nan)) syncFails) i
      = refValue a (zeros (fun _ => F32.nan)) i from rfl, refValue_zeros]
    simp [afterTransfer, copy_n, hi, syncFails]
  rw [main_of_ok N a _ syncFails hok, hzero]
  exact ⟨by decide, rfl, rfl, rfl, rfl, rfl⟩

/-! ### C3: the exit status -/

set_option maxRecDepth 100000 in
/-- Counterexample to C3 as stated: with the problem size of the source and no
runtime failure, a device result wrong at exactly 256 indices makes `main`
return the count 256, which lies between 1 and `N`, and the parent process
observes the exit status 0. -/
theorem C3_counterexample_256_mismatches :
    (∀ c : Call, (okRuntime first256).status c = c.success) ∧
    (main N a (zeros (fun _ => F32.nan)) (okRuntime first256)).outcome = Outcome.ret 256 ∧
    (1 : Int) ≤ 256 ∧ (256 : Int) ≤ N ∧
    exitStatus (main N a (zeros (fun _ => F32.nan)) (okRuntime first256)).outcome = 0 := by
  have hok : ∀ c : Call, c.checked → (okRuntime first256).status c = c.success := by
    intro c _
    cases c <;> rfl
  have hone : exceedsTolerance (F32.fin false 0) (F32.fin false (whole 1)) = true := by
    decide
  have hcount : verifyLoop N
      (refLoop N a (afterTransfer N (zeros (fun _ => F32.nan)) (okRuntime first256))) = 256 := by
    rw [verify_ref_eq_card]
    have hset : (Finset.range N).filter
        (fun i => exceedsTolerance
          (refValue a (afterTransfer N (zeros (fun _ => F32.nan)) (okRuntime first256)) i)
          ((afterTransfer N (zeros (fun _ => F32.nan)) (okRuntime first256)).y_gpu_res i)
            = true) = Finset.range 256 := by
      ext i
      simp only [Finset.mem_filter, Finset.mem_range]
      rw [show refValue a (afterTransfer N (zeros (fun _ => F32.nan)) (okRuntime first256)) i
        = refValue a (zeros (fun _ => F32.nan)) i from rfl, refValue_zeros]
      simp only [afterTransfer, copy_n, okRuntime, first256]
      by_cases hi : i < 256
      · have hN : i < N := by
          have : (256 : Nat) ≤ N := by decide
          omega
        simp [hi, hN, hone]
      · by_cases hN : i < N
        · simp [hi, hN, exceedsTolerance_zero_zero]
        · simp [hi, hN]
    rw [hset]
    simp
  rw [main_of_ok N a _ _ hok, hcount]
  exact ⟨fun c => by cases c <;> rfl, rfl, by decide, by decide, rfl⟩

/-- C3, amended: on a run with no runtime failure `main` returns the mismatch
count `c`, with `c ≤ n`; the exit status the parent observes is non-zero
whenever `c` is not a multiple of 256, and it is zero when `c = 0`. -/
theorem C3_exit_status_of_mismatch_count (n : Nat) (a : Finite32) (h : Host) (rt : Runtime)
    (hok : ∀ c : Call, rt.status c = c.success) :
    (main n a h rt).outcome = Outcome.ret (mismatchCount n a h rt.y_gpu : Nat) ∧
    mismatchCount n a h rt.y_gpu ≤ n ∧
    (¬ 256 ∣ mismatchCount n a h rt.y_gpu → exitStatus (main n a h rt).outcome ≠ 0) ∧
    (mismatchCount n a h rt.y_gpu = 0 → exitStatus (main n a h rt).outcome = 0) := by
  have hout := main_outcome_of_ok n a h rt (fun c _ => hok c)
  refine ⟨hout, mismatchCount_le n a h rt.y_gpu, ?_, ?_⟩
  · intro hndvd
    rw [hout]
    show ((mismatchCount n a h rt.y_gpu : Nat) : Int) % 256 ≠ 0
    omega
  · intro hzero
    rw [hout, hzero]
    rfl

set_option maxRecDepth 100000 in
/-- Witness of C3: the two-element scenario with the device result
`[110.0, 0.0]`: the count is 1 and the exit status is 1. -/
theorem C3_witness :
    (∀ c : Call, (okRuntime corrupted).status c = c.success) ∧
    mismatchCount 2 a (scenario (fun _ => F32.nan)) (okRuntime corrupted).y_gpu = 1 ∧
    exitStatus (main 2 a (scenario (fun _ => F32.nan)) (okRuntime corrupted)).outcome = 1 ∧
    ((main 2 a (scenario (fun _ => F32.nan)) (okRuntime corrupted)).outcome =
      Outcome.ret
        (mismatchCount 2 a (scenario (fun _ => F32.nan)) (okRuntime corrupted).y_gpu : Nat) ∧
    mismatchCount 2 a (scenario (fun _ => F32.nan)) (okRuntime corrupted).y_gpu ≤ 2 ∧
    (¬ 256 ∣ mismatchCount 2 a (scenario (fun _ => F32.nan)) (okRuntime corrupted).y_gpu →
      exitStatus (main 2 a (scenario (fun _ => F32.nan)) (okRuntime corrupted)).outcome ≠ 0) ∧
    (mismatchCount 2 a (scenario (fun _ => F32.nan)) (okRuntime corrupted).y_gpu = 0 →
      exitStatus (main 2 a (scenario (fun _ => F32.nan)) (okRuntime corrupted)).outcome = 0)) :=
  ⟨fun c => by cases c <;> rfl, by decide, by decide,
   C3_exit_status_of_mismatch_count 2 a (scenario (fun _ => F32.nan)) (okRuntime corrupted)
    (fun c => by cases c <;> rfl)⟩

end Saxpy
